import Mathlib

set_option maxHeartbeats 1000000

/-!
Shallow embedding of the mongodump execution core (package mongodump:
mongodump.go, oplog_dump.go, and the intent-creation file) together with
theorems settling the frozen claims about it.

Machine integers that only need a total order (bson.MongoTimestamp) are
embedded as Nat; raw BSON payloads are lists of bytes (Nat); fallible steps
return Except or a Bool error flag mirroring the Go (value, error) pairs.
-/

/- ### Oplog consistency checks (oplog_dump.go, Dump phase III) -/

/-- Result of the FindOne call that reads the oldest entry (ascending natural
order) still present in the write log: either that entry with its timestamp,
or a read error. -/
inductive OplogRead where
  | found (oldest : Nat)
  | readErr
deriving DecidableEq

/-- checkOplogTimestampExists (oplog_dump.go:54-68). On a read error the Go
code returns (false, err); otherwise it returns (false, nil) when the oldest
timestamp is strictly greater than the captured one, and (true, nil) when it
is at or before it. The first component is the existence flag, the second
models whether the returned error value is non-nil. -/
def checkOplogTimestampExists (read : OplogRead) (ts : Nat) : Bool × Bool :=
  match read with
  | .readErr => (false, true)
  | .found oldest => if ts < oldest then (false, false) else (true, false)

/-- Outcome of the oplog phase of Dump; the distinct error messages of
mongodump.go:273, 277, 284 are distinct constructors. -/
inductive PhaseResult where
  | success
  | oplogOverflow
  | unableToCheck
  | dumpError
deriving DecidableEq

/-- Oplog phase of Dump (mongodump.go:269-304), run when oplog capture is
enabled: first overflow check, oplog copy, second overflow check. The inputs
are the FindOne outcome at each verification point and whether the
DumpOplogAfterTimestamp call succeeds. The Go code tests the existence flag
first and the error value second at both points. -/
def dumpOplogPhase (start : Nat) (read1 : OplogRead) (dumpOk : Bool)
    (read2 : OplogRead) : PhaseResult :=
  let r1 := checkOplogTimestampExists read1 start
  if r1.1 = false then .oplogOverflow
  else if r1.2 = true then .unableToCheck
  else if dumpOk = false then .dumpError
  else
    let r2 := checkOplogTimestampExists read2 start
    if r2.1 = false then .oplogOverflow
    else if r2.2 = true then .unableToCheck
    else .success

/-- C1: with oplog capture enabled, if at either verification point the oldest
entry still present in the write log has a timestamp strictly greater than the
captured start timestamp, the run fails with the overflow error and does not
report success. The second verification point is reached exactly when the
first check passed and the oplog copy succeeded. -/
theorem c1_overflow_detected (start : Nat) (read1 read2 : OplogRead)
    (dumpOk : Bool)
    (h : (∃ o1, read1 = OplogRead.found o1 ∧ start < o1) ∨
      ((∃ o1, read1 = OplogRead.found o1 ∧ o1 ≤ start) ∧ dumpOk = true ∧
        ∃ o2, read2 = OplogRead.found o2 ∧ start < o2)) :
    dumpOplogPhase start read1 dumpOk read2 = PhaseResult.oplogOverflow ∧
      dumpOplogPhase start read1 dumpOk read2 ≠ PhaseResult.success := by
  rcases h with ⟨o1, h1, hlt⟩ | ⟨⟨o1, h1, hle⟩, hd, o2, h2, hlt⟩
  · subst h1
    simp [dumpOplogPhase, checkOplogTimestampExists, hlt]
  · subst h1; subst h2; subst hd
    simp [dumpOplogPhase, checkOplogTimestampExists, hlt, Nat.not_lt.mpr hle]

/-- C1 witness: a concrete run whose first verification point sees an oldest
entry (timestamp 7) newer than the captured start (5). -/
theorem c1_overflow_witness :
    dumpOplogPhase 5 (OplogRead.found 7) true (OplogRead.found 1) =
        PhaseResult.oplogOverflow ∧
      dumpOplogPhase 5 (OplogRead.found 7) true (OplogRead.found 1) ≠
        PhaseResult.success :=
  c1_overflow_detected 5 (OplogRead.found 7) (OplogRead.found 1) true
    (Or.inl ⟨7, rfl, by decide⟩)

/-- C10: a read error at a verification point yields the overflow error, not
the distinct unable-to-check error, because checkOplogTimestampExists returns
a false existence flag together with the error and Dump tests the existence
flag first. Stated for a read error at the first point (any copy outcome and
second read) and for one at the second point (first check passing, copy
succeeding). -/
theorem c10_read_error_reports_overflow (start : Nat) (dumpOk : Bool)
    (read2 : OplogRead) (o1 : Nat) (h1 : o1 ≤ start) :
    (dumpOplogPhase start OplogRead.readErr dumpOk read2 =
        PhaseResult.oplogOverflow ∧
      dumpOplogPhase start OplogRead.readErr dumpOk read2 ≠
        PhaseResult.unableToCheck) ∧
      (dumpOplogPhase start (OplogRead.found o1) true OplogRead.readErr =
          PhaseResult.oplogOverflow ∧
        dumpOplogPhase start (OplogRead.found o1) true OplogRead.readErr ≠
          PhaseResult.unableToCheck) := by
  refine ⟨⟨?_, ?_⟩, ?_, ?_⟩ <;>
    simp [dumpOplogPhase, checkOplogTimestampExists, Nat.not_lt.mpr h1]

/-- C10 witness: concrete read failures at both verification points. -/
theorem c10_read_error_witness :
    (dumpOplogPhase 5 OplogRead.readErr true (OplogRead.found 2) =
        PhaseResult.oplogOverflow ∧
      dumpOplogPhase 5 OplogRead.readErr true (OplogRead.found 2) ≠
        PhaseResult.unableToCheck) ∧
      (dumpOplogPhase 5 (OplogRead.found 3) true OplogRead.readErr =
          PhaseResult.oplogOverflow ∧
        dumpOplogPhase 5 (OplogRead.found 3) true OplogRead.readErr ≠
          PhaseResult.unableToCheck) :=
  c10_read_error_reports_overflow 5 true (OplogRead.found 2) 3 (by decide)

/- ### Worker-outcome collection (DumpIntents, mongodump.go:309-354) -/

/-- Result-collection loop of DumpIntents (mongodump.go:347-351). Worker
outcomes are modelled as the list of values received from resultChan in
arrival order, none meaning success and some e an error. The loop receives
outcomes one at a time and returns the first error immediately. The first
component is the value DumpIntents returns, the second counts how many
outcomes were actually received before returning. -/
def collectResults : List (Option String) → Option String × Nat
  | [] => (none, 0)
  | some e :: _ => (some e, 1)
  | none :: rest =>
    let r := collectResults rest
    (r.1, r.2 + 1)

/-- C2 counterexample: with two workers whose outcomes arrive as an error then
a success, the loop returns after receiving only one of the two outcomes, so
the orchestrator does not collect the outcome of every worker. -/
theorem c2_counterexample :
    (collectResults [some "boom", none]).2 = 1 ∧
      ([some "boom", none] : List (Option String)).length = 2 ∧
      (1 : Nat) ≠ 2 :=
  ⟨rfl, rfl, by decide⟩

/-- C2 amended: the orchestrator receives worker outcomes in arrival order and
returns the first reported error immediately, leaving the outcomes of the
remaining workers uncollected; only when every worker succeeds are all P
outcomes collected (and nil returned). The returned value is the first error
among the outcomes, and the number of outcomes collected is the number of
leading successes plus one more when an error follows them. -/
theorem c2_amended (rs : List (Option String)) :
    (collectResults rs).1 = rs.findSome? id ∧
      (collectResults rs).2 = (rs.takeWhile Option.isNone).length +
        (if (rs.findSome? id).isSome then 1 else 0) := by
  induction rs with
  | nil => simp [collectResults, List.findSome?]
  | cons r rest ih =>
    obtain ⟨ih1, ih2⟩ := ih
    cases r with
    | some e =>
      refine ⟨rfl, ?_⟩
      show 1 = (List.takeWhile Option.isNone (some e :: rest)).length +
        (if (List.findSome? id (some e :: rest)).isSome then 1 else 0)
      simp [List.takeWhile, List.findSome?]
    | none =>
      constructor
      · show (collectResults rest).1 = List.findSome? id (none :: rest)
        rw [ih1]
        rfl
      · show (collectResults rest).2 + 1 =
          (List.takeWhile Option.isNone (none :: rest)).length +
            (if (List.findSome? id (none :: rest)).isSome then 1 else 0)
        have h2 : List.findSome? id (none :: rest) = List.findSome? id rest :=
          rfl
        have h3 : List.takeWhile Option.isNone (none :: rest) =
            none :: List.takeWhile Option.isNone rest := rfl
        rw [h2, h3, ih2]
        simp [Nat.add_right_comm]

/- ### Oplog copy query (DumpOplogAfterTimestamp, oplog_dump.go:72-84) -/

/-- An entry of the write log: its timestamp and its raw payload bytes. -/
structure OplogEntry where
  ts : Nat
  payload : List Nat
deriving DecidableEq

/-- DumpOplogAfterTimestamp (oplog_dump.go:72-84) builds the query
ts strictly-greater-than the captured timestamp and streams the matching
entries. The cursor collaborator is modelled by its contract: a find with
that filter returns, in natural order, exactly the entries of the log whose
timestamp exceeds the bound (the LogReplay flag is an optimization hint and
does not change which entries match). -/
def DumpOplogAfterTimestamp (oplog : List OplogEntry) (ts : Nat) :
    List OplogEntry :=
  oplog.filter (fun e => decide (ts < e.ts))

/-- C3: the oplog copy step dumps exactly the write-log entries whose
timestamp is strictly greater than the captured start timestamp: an entry is
written iff it is in the log and its timestamp exceeds the mark. -/
theorem c3_oplog_copy_exact (oplog : List OplogEntry) (ts : Nat)
    (e : OplogEntry) :
    e ∈ DumpOplogAfterTimestamp oplog ts ↔ e ∈ oplog ∧ ts < e.ts := by
  simp [DumpOplogAfterTimestamp, List.mem_filter]

/- ### Streaming pipeline (dumpIterToWriter, mongodump.go:444-494) -/

/-- Buffered writer collaborator (bufio.NewWriterSize, mongodump.go:469).
Contract of the collaborator: written bytes accumulate in an internal buffer
and are pushed to the destination, in order, when the buffer overflows and on
Flush; flushed is what the destination has received so far. -/
structure BufWriter where
  flushed : List Nat
  buf : List Nat
deriving DecidableEq

/-- Write p through the buffer: overflow pushes everything buffered so far
(buffered bytes first, then p) to the destination, otherwise p is buffered. -/
def BufWriter.write (sz : Nat) (w : BufWriter) (p : List Nat) : BufWriter :=
  if sz < w.buf.length + p.length then ⟨w.flushed ++ w.buf ++ p, []⟩
  else ⟨w.flushed, w.buf ++ p⟩

/-- Flush (mongodump.go:489): push all buffered bytes to the destination. -/
def BufWriter.flush (w : BufWriter) : BufWriter := ⟨w.flushed ++ w.buf, []⟩

/-- Writing through the buffer never reorders or loses bytes: destination
bytes followed by buffered bytes always equal the old ones followed by p. -/
theorem BufWriter.write_spec (sz : Nat) (w : BufWriter) (p : List Nat) :
    (BufWriter.write sz w p).flushed ++ (BufWriter.write sz w p).buf =
      w.flushed ++ w.buf ++ p := by
  unfold BufWriter.write
  split <;> simp

/-- The read stage copies each raw document into an independently owned
buffer before the handoff (nextCopy, mongodump.go:461-462). -/
def copyDoc (d : List Nat) : List Nat := List.map id d

theorem copyDoc_eq (d : List Nat) : copyDoc d = d := List.map_id d

/-- State of the two-stage pipeline of dumpIterToWriter: the documents the
read stage has not yet pulled from the cursor, the single-slot handoff
(buffChan), whether the handoff has been closed, the buffered writer of the
write stage, and whether the pipeline has returned. -/
structure PipeState where
  pending : List (List Nat)
  slot : Option (List Nat)
  closed : Bool
  w : BufWriter
  finished : Bool
deriving DecidableEq

/-- One step of the pipeline on an error-free source (mongodump.go:450-494):
send: the read stage pulls the next document, copies it and hands it off
  (the unbuffered channel holds it until the write stage receives);
close: the source is exhausted and the last handoff was received, so the
  read stage closes the handoff;
recv: the write stage receives the in-flight document and writes it through
  the buffered writer;
finish: the handoff is closed and drained, iter.Err() is nil, so the write
  stage flushes and the pipeline returns. -/
inductive PipeStep (sz : Nat) : PipeState → PipeState → Prop
  | send (d : List Nat) (rest : List (List Nat)) (w : BufWriter) :
      PipeStep sz ⟨d :: rest, none, false, w, false⟩
        ⟨rest, some (copyDoc d), false, w, false⟩
  | close (w : BufWriter) :
      PipeStep sz ⟨[], none, false, w, false⟩ ⟨[], none, true, w, false⟩
  | recv (pending : List (List Nat)) (b : List Nat) (c : Bool)
      (w : BufWriter) :
      PipeStep sz ⟨pending, some b, c, w, false⟩
        ⟨pending, none, c, BufWriter.write sz w b, false⟩
  | finish (pending : List (List Nat)) (w : BufWriter) :
      PipeStep sz ⟨pending, none, true, w, false⟩
        ⟨pending, none, true, w.flush, true⟩

/-- Initial pipeline state: the whole source pending, empty handoff, empty
buffered writer over an empty destination. -/
def initPipeState (docs : List (List Nat)) : PipeState :=
  ⟨docs, none, false, ⟨[], []⟩, false⟩

/-- Bytes currently sitting in the handoff slot. -/
def slotBytes : Option (List Nat) → List Nat
  | none => []
  | some b => b

/-- Pipeline invariant: destination bytes, buffered bytes, the in-flight
document and the unread documents always concatenate to the whole source;
the handoff only closes once the source is drained and the slot empty; and
a finished pipeline has closed the handoff and flushed its buffer. -/
def pipeInv (docs : List (List Nat)) (s : PipeState) : Prop :=
  s.w.flushed ++ s.w.buf ++ slotBytes s.slot ++ s.pending.flatten = docs.flatten ∧
    (s.closed = true → s.pending = [] ∧ s.slot = none) ∧
    (s.finished = true → s.closed = true ∧ s.w.buf = [])

theorem pipeInv_init (docs : List (List Nat)) :
    pipeInv docs (initPipeState docs) := by
  refine ⟨?_, ?_, ?_⟩ <;> simp [initPipeState, slotBytes]

theorem pipeInv_step (docs : List (List Nat)) (sz : Nat) (s t : PipeState)
    (hs : pipeInv docs s) (st : PipeStep sz s t) : pipeInv docs t := by
  obtain ⟨h1, h2, h3⟩ := hs
  cases st with
  | send d rest w =>
    refine ⟨?_, by simp, by simp⟩
    simp only [slotBytes, List.flatten, List.append_nil] at h1 ⊢
    simpa [copyDoc_eq, List.append_assoc] using h1
  | close w =>
    exact ⟨h1, fun _ => ⟨rfl, rfl⟩, by simp⟩
  | recv pending b c w =>
    refine ⟨?_, ?_, by simp⟩
    · simp only [slotBytes] at h1 ⊢
      unfold BufWriter.write
      split <;> simp_all [List.append_assoc]
    · intro hc
      exact absurd (h2 hc).2 (by simp)
  | finish pending w =>
    obtain ⟨hp, _⟩ := h2 rfl
    subst hp
    refine ⟨?_, fun _ => ⟨rfl, rfl⟩, fun _ => ⟨rfl, rfl⟩⟩
    simp only [slotBytes, List.flatten, List.append_nil, BufWriter.flush] at h1 ⊢
    simpa using h1

theorem pipeInv_reachable (docs : List (List Nat)) (sz : Nat) (s : PipeState)
    (h : Relation.ReflTransGen (PipeStep sz) (initPipeState docs) s) :
    pipeInv docs s := by
  induction h with
  | refl => exact pipeInv_init docs
  | tail _ st ih => exact pipeInv_step docs sz _ _ ih st

/-- Modelled from the spec: the naive sequential read-then-write copy loop
that the concurrent pipeline is claimed to be equivalent to — read each
document in source order and append its payload to the destination. -/
def naiveSequentialCopy (docs : List (List Nat)) : List Nat :=
  docs.foldl (fun acc d => acc ++ d) []

theorem naiveSequentialCopy_eq_flatten (docs : List (List Nat)) :
    naiveSequentialCopy docs = docs.flatten := by
  unfold naiveSequentialCopy
  suffices h : ∀ acc : List Nat,
      docs.foldl (fun acc d => acc ++ d) acc = acc ++ docs.flatten by
    simpa using h []
  induction docs with
  | nil => intro acc; simp
  | cons d rest ih => intro acc; simp [ih]

/-- C4: for every finite sequence of documents produced by the source cursor
without error, every finished run of the two-stage decoupled pipeline has
written to the destination exactly the concatenation of the documents in
source order — the behaviour of the naive sequential copy loop. -/
theorem c4_pipeline_refines_sequential_copy (sz : Nat)
    (docs : List (List Nat)) (s : PipeState)
    (h : Relation.ReflTransGen (PipeStep sz) (initPipeState docs) s)
    (hf : s.finished = true) :
    s.w.flushed = naiveSequentialCopy docs := by
  obtain ⟨h1, h2, h3⟩ := pipeInv_reachable docs sz s h
  obtain ⟨hc, hb⟩ := h3 hf
  obtain ⟨hp, hsl⟩ := h2 hc
  rw [naiveSequentialCopy_eq_flatten]
  rw [hp, hsl, hb] at h1
  simpa [slotBytes] using h1

/-- Final state of a concrete two-document pipeline run. -/
def pipeEndState : PipeState := ⟨[], none, true, ⟨[1, 2], []⟩, true⟩

/-- C4 witness: a complete concrete run of the pipeline on the source
[[1], [2]] with buffer size 32, ending finished with destination [1, 2]. -/
theorem c4_pipeline_witness :
    Relation.ReflTransGen (PipeStep 32) (initPipeState [[1], [2]])
        pipeEndState ∧
      pipeEndState.w.flushed = naiveSequentialCopy [[1], [2]] := by
  have hchain : Relation.ReflTransGen (PipeStep 32)
      (initPipeState [[1], [2]]) pipeEndState := by
    refine Relation.ReflTransGen.head (PipeStep.send [1] [[2]] ⟨[], []⟩) ?_
    refine Relation.ReflTransGen.head (PipeStep.recv [[2]] (copyDoc [1])
      false ⟨[], []⟩) ?_
    refine Relation.ReflTransGen.head
      (PipeStep.send [2] [] (BufWriter.write 32 ⟨[], []⟩ (copyDoc [1]))) ?_
    refine Relation.ReflTransGen.head (PipeStep.recv [] (copyDoc [2]) false
      (BufWriter.write 32 ⟨[], []⟩ (copyDoc [1]))) ?_
    refine Relation.ReflTransGen.head (PipeStep.close
      (BufWriter.write 32 (BufWriter.write 32 ⟨[], []⟩ (copyDoc [1]))
        (copyDoc [2]))) ?_
    refine Relation.ReflTransGen.head (PipeStep.finish []
      (BufWriter.write 32 (BufWriter.write 32 ⟨[], []⟩ (copyDoc [1]))
        (copyDoc [2]))) ?_
    have hend : (BufWriter.write 32 (BufWriter.write 32 ⟨[], []⟩
        (copyDoc [1])) (copyDoc [2])).flush = pipeEndState.w := by decide
    rw [hend]
    exact Relation.ReflTransGen.refl
  exact ⟨hchain,
    c4_pipeline_refines_sequential_copy 32 [[1], [2]] pipeEndState hchain rfl⟩

/- ### Exit paths of the write stage (dumpIterToWriter, mongodump.go:473-493) -/

/-- The three exit paths of dumpIterToWriter: the handoff closed and
iter.Err() was nil (break then flush), the handoff closed with a cursor
error (return at line 477), or a write failed (return at line 483). -/
inductive ExitPath where
  | natural
  | cursorError
  | writeError
deriving DecidableEq

/-- Outcome of the write stage: which exit path was taken, the final buffered
writer, and whether w.Flush() was invoked before returning. -/
structure StageResult where
  exit : ExitPath
  w : BufWriter
  flushCalled : Bool
deriving DecidableEq

/-- Write-stage loop of dumpIterToWriter (mongodump.go:473-493). The list
holds the documents received from the handoff in order; iterErr tells whether
iter.Err() is non-nil once the handoff closes; failIdx is the index of the
document whose write fails, if any. On a write error the loop returns at once
(line 483); once the handoff closes, a cursor error returns at once
(line 477); only the remaining path breaks out and calls w.Flush()
(line 489). -/
def writeStage (sz : Nat) (iterErr : Bool) (failIdx : Option Nat) :
    List (List Nat) → Nat → BufWriter → StageResult
  | [], _, w => if iterErr then ⟨.cursorError, w, false⟩
      else ⟨.natural, w.flush, true⟩
  | b :: rest, i, w =>
    if failIdx = some i then ⟨.writeError, w, false⟩
    else writeStage sz iterErr failIdx rest (i + 1) (BufWriter.write sz w b)

/-- C5 counterexample: a run whose source yields one document and then fails
(cursor error surfaced after the handoff closes) returns without calling
Flush and with the document still sitting unflushed in the buffer, so the
buffered destination stream is not flushed on that exit path. -/
theorem c5_counterexample :
    (writeStage 32 true none [[1]] 0 ⟨[], []⟩).exit = ExitPath.cursorError ∧
      (writeStage 32 true none [[1]] 0 ⟨[], []⟩).flushCalled = false ∧
      (writeStage 32 true none [[1]] 0 ⟨[], []⟩).w.buf = [1] := by
  decide

/-- C5 amended: the buffered destination stream is flushed before the
pipeline returns exactly on the natural-exhaustion exit path (leaving the
buffer empty there); on the cursor-error and write-error exit paths the
pipeline returns without flushing. -/
theorem c5_amended (sz : Nat) (iterErr : Bool) (failIdx : Option Nat)
    (docs : List (List Nat)) (i : Nat) (w : BufWriter) :
    ((writeStage sz iterErr failIdx docs i w).flushCalled = true ↔
        (writeStage sz iterErr failIdx docs i w).exit = ExitPath.natural) ∧
      ((writeStage sz iterErr failIdx docs i w).exit = ExitPath.natural →
        (writeStage sz iterErr failIdx docs i w).w.buf = []) := by
  induction docs generalizing i w with
  | nil =>
    cases iterErr <;> simp [writeStage, BufWriter.flush]
  | cons b rest ih =>
    by_cases hf : failIdx = some i
    · simp [writeStage, hf]
    · simpa [writeStage, hf] using ih (i + 1) (BufWriter.write sz w b)

/-- C5 amended witness: a concrete natural-exhaustion run flushes (and a
concrete cursor-error run does not). -/
theorem c5_amended_witness :
    (writeStage 32 false none [[1]] 0 ⟨[], []⟩).flushCalled = true ∧
      (writeStage 32 false none [[1]] 0 ⟨[], []⟩).w.buf = [] := by
  obtain ⟨h1, h2⟩ := c5_amended 32 false none [[1]] 0 ⟨[], []⟩
  exact ⟨h1.mpr (by decide), h2 (by decide)⟩

/- ### Oplog namespace determination (oplog_dump.go:15-37) -/

/-- The isMaster probe response, keeping the two fields the code inspects:
the optional list of cluster member hosts and the optional ismaster flag. -/
structure IsMasterDoc where
  hosts : Option (List String)
  ismaster : Option Bool
deriving DecidableEq

/-- Modelled from the spec: util.IsFalsy (common/util, not under src) applied
to the ismaster field. The spec reads "if the probe explicitly reports this
node is not currently a primary", embedded as the field being present with
the value false. -/
def IsFalsy (v : Option Bool) : Bool :=
  v == some false

/-- determineOplogCollectionName (oplog_dump.go:15-37): if the probe response
has a hosts entry, the namespace is oplog.rs; else if the ismaster value is
falsy the step fails with "not connected to master"; else the namespace is
the legacy oplog.$main. -/
def determineOplogCollectionName (doc : IsMasterDoc) : Except String String :=
  if doc.hosts.isSome then Except.ok "oplog.rs"
  else if IsFalsy doc.ismaster then Except.error "not connected to master"
  else Except.ok "oplog.$main"

/-- C6: the oplog-namespace determination is a three-way decision: member
hosts listed selects oplog.rs and succeeds; otherwise an explicit
not-a-primary report fails with the not-connected error; otherwise the
legacy oplog.$main is selected and the step succeeds. -/
theorem c6_three_way_decision (doc : IsMasterDoc) :
    (doc.hosts.isSome = true →
        determineOplogCollectionName doc = Except.ok "oplog.rs") ∧
      (doc.hosts.isSome = false → doc.ismaster = some false →
        determineOplogCollectionName doc =
          Except.error "not connected to master") ∧
      (doc.hosts.isSome = false → doc.ismaster ≠ some false →
        determineOplogCollectionName doc = Except.ok "oplog.$main") := by
  refine ⟨fun h => ?_, fun h hm => ?_, fun h hm => ?_⟩
  · simp [determineOplogCollectionName, h]
  · simp [determineOplogCollectionName, IsFalsy, h, hm]
  · simp [determineOplogCollectionName, IsFalsy, h, hm]

/-- C6 witness: the three branches at concrete probe responses. -/
theorem c6_three_way_witness :
    determineOplogCollectionName ⟨some ["h1"], some true⟩ =
        Except.ok "oplog.rs" ∧
      determineOplogCollectionName ⟨none, some false⟩ =
        Except.error "not connected to master" ∧
      determineOplogCollectionName ⟨none, some true⟩ =
        Except.ok "oplog.$main" :=
  ⟨(c6_three_way_decision ⟨some ["h1"], some true⟩).1 rfl,
    (c6_three_way_decision ⟨none, some false⟩).2.1 rfl rfl,
    (c6_three_way_decision ⟨none, some true⟩).2.2 rfl (by decide)⟩

/- ### Intent creation and exclusion (part_000) -/

/-- The two exclusion lists consumed from the output options
(OutputOptions.ExcludedCollections and the excluded name-beginnings list). -/
structure ExcludeOptions where
  excludedCollections : List String
  excludedCollectionPrefixes : List String
deriving DecidableEq

/-- shouldSkipCollection (part_000:14-26): a collection is skipped when its
name equals one of the excluded names or starts with one of the excluded
name beginnings. -/
def shouldSkipCollection (opts : ExcludeOptions) (colName : String) : Bool :=
  opts.excludedCollections.any (fun ex => colName == ex) ||
    opts.excludedCollectionPrefixes.any (fun pre => colName.startsWith pre)

/-- Open-or-closed state of the file handles an intent owns. -/
structure IntentFiles where
  bsonOpen : Bool
  metadataOpen : Bool
deriving DecidableEq

/-- An intent: its database name, collection name, and file-handle state. -/
structure Intent where
  db : String
  c : String
  files : IntentFiles
deriving DecidableEq

/-- CreateIntentForCollection (part_000:109-158): excluded collections yield
no intent; otherwise the intent is built and os.Create opens its BSON file at
creation time (part_000:122), and its metadata file too unless the collection
is the system-indexes one (part_000:127-129; the IsSystemIndexes test of the
intents collaborator is the fixed system.indexes name). -/
def CreateIntentForCollection (opts : ExcludeOptions)
    (dbName colName : String) : Option Intent :=
  if shouldSkipCollection opts colName then none
  else some ⟨dbName, colName, ⟨true, !(colName == "system.indexes")⟩⟩

/-- CreateIntentsForDatabase (part_000:162-182): one CreateIntentForCollection
call per enumerated collection name, collecting the created intents. -/
def CreateIntentsForDatabase (opts : ExcludeOptions) (dbName : String)
    (cols : List String) : List Intent :=
  cols.filterMap (fun colName => CreateIntentForCollection opts dbName colName)

/-- C9: the number of intents created for a database equals the number of
enumerable collections minus those matching an exact-name or name-beginning
exclusion, and an excluded collection never yields an intent. -/
theorem c9_intent_count (opts : ExcludeOptions) (dbName : String)
    (cols : List String) :
    (CreateIntentsForDatabase opts dbName cols).length =
        cols.length -
          (cols.filter (fun c => shouldSkipCollection opts c)).length ∧
      ∀ c, shouldSkipCollection opts c = true →
        ∀ i ∈ CreateIntentsForDatabase opts dbName cols, i.c ≠ c := by
  constructor
  · have key : (CreateIntentsForDatabase opts dbName cols).length +
        (cols.filter (fun c => shouldSkipCollection opts c)).length =
        cols.length := by
      induction cols with
      | nil => rfl
      | cons c rest ih =>
        by_cases hs : shouldSkipCollection opts c
        · simp only [CreateIntentsForDatabase, List.filterMap_cons,
            CreateIntentForCollection, hs, if_true, List.filter_cons] at ih ⊢
          simp [hs]
          omega
        · simp only [CreateIntentsForDatabase, List.filterMap_cons,
            CreateIntentForCollection, hs, if_false, List.filter_cons]
              at ih ⊢
          simp [hs]
          omega
    omega
  · intro c hc i hi hic
    simp only [CreateIntentsForDatabase, List.mem_filterMap] at hi
    obtain ⟨a, _, hsome⟩ := hi
    by_cases hs : shouldSkipCollection opts a
    · simp [CreateIntentForCollection, hs] at hsome
    · simp only [CreateIntentForCollection, hs, if_neg, Bool.false_eq_true,
        not_false_eq_true, Option.some.injEq] at hsome
      rw [← hsome] at hic
      have hac : a = c := hic
      rw [hac] at hs
      exact hs hc

/-- C9 witness: with exact exclusion "secret" and name-beginning exclusion
"tmp.", three enumerated collections yield one intent, and the excluded
collection yields none. -/
theorem c9_intent_count_witness :
    (CreateIntentsForDatabase ⟨["secret"], ["tmp."]⟩ "db1"
        ["foo", "secret", "tmp.x"]).length =
        (["foo", "secret", "tmp.x"] : List String).length -
          ((["foo", "secret", "tmp.x"] : List String).filter
            (fun c => shouldSkipCollection ⟨["secret"], ["tmp."]⟩ c)).length ∧
      Intent.mk "db1" "secret" ⟨true, true⟩ ∉
        CreateIntentsForDatabase ⟨["secret"], ["tmp."]⟩ "db1"
          ["foo", "secret", "tmp.x"] := by
  obtain ⟨h1, h2⟩ :=
    c9_intent_count ⟨["secret"], ["tmp."]⟩ "db1" ["foo", "secret", "tmp.x"]
  exact ⟨h1, fun hmem => h2 "secret" (by decide) _ hmem rfl⟩

/- ### File-handle lifecycle of one intent (C7) -/

/-- DumpIntent opening its BSON file before the copy (mongodump.go:369). -/
def dumpIntentOpenFiles (f : IntentFiles) : IntentFiles :=
  { f with bsonOpen := true }

/-- The deferred BSONFile.Close of DumpIntent (mongodump.go:373): it runs on
every exit path, success or failure. -/
def dumpIntentCloseFiles (f : IntentFiles) : IntentFiles :=
  { f with bsonOpen := false }

/-- Running DumpIntent on the file handles: open, copy (whose success or
failure does not change the handle effects, since the close is deferred),
close. -/
def dumpIntentRunFiles (f : IntentFiles) (_copySucceeds : Bool) :
    IntentFiles :=
  dumpIntentCloseFiles (dumpIntentOpenFiles f)

/-- Snapshots of (intent currently being copied, file-handle state) over the
life of one non-excluded intent: after CreateIntentForCollection while it
waits in the queue, inside DumpIntent between the open and the deferred
close, and after DumpIntent returns. -/
def intentFileTimeline (opts : ExcludeOptions) (dbName colName : String)
    (copySucceeds : Bool) : List (Bool × IntentFiles) :=
  match CreateIntentForCollection opts dbName colName with
  | none => []
  | some i =>
    [(false, i.files),
     (true, dumpIntentOpenFiles i.files),
     (false, dumpIntentRunFiles i.files copySucceeds)]

/-- C7 counterexample: for an ordinary collection with no exclusions, the
queued snapshot — after intent creation, before any copying — already has
open file handles (os.Create opened them), so it is false that outside the
copy interval none of the intent file handles is open. -/
theorem c7_counterexample :
    ¬ ∀ p ∈ intentFileTimeline ⟨[], []⟩ "db1" "c1" true,
        p.1 = false → p.2.bsonOpen = false ∧ p.2.metadataOpen = false := by
  decide

/-- C7 amended: an intent created for a collection has its file handles
opened eagerly at creation time by os.Create, so they are already open while
it waits to be copied; DumpIntent keeps the BSON handle open during the copy
and its deferred close leaves it closed after DumpIntent returns on every
exit path, success or failure. -/
theorem c7_handle_lifecycle (opts : ExcludeOptions) (dbName colName : String)
    (copySucceeds : Bool) (i : Intent)
    (h : CreateIntentForCollection opts dbName colName = some i) :
    i.files.bsonOpen = true ∧
      (dumpIntentOpenFiles i.files).bsonOpen = true ∧
      (dumpIntentRunFiles i.files copySucceeds).bsonOpen = false := by
  unfold CreateIntentForCollection at h
  by_cases hs : shouldSkipCollection opts colName
  · simp [hs] at h
  · simp only [hs, Bool.false_eq_true, if_neg, not_false_eq_true,
      Option.some.injEq] at h
    rw [← h]
    exact ⟨rfl, rfl, rfl⟩

/-- C7 amended witness: a concrete intent whose BSON handle is open at
creation and during copying, and closed after DumpIntent returns whether the
copy succeeded or failed. -/
theorem c7_handle_lifecycle_witness :
    (Intent.mk "db1" "c1" ⟨true, true⟩).files.bsonOpen = true ∧
      (dumpIntentOpenFiles (Intent.mk "db1" "c1" ⟨true, true⟩).files).bsonOpen
        = true ∧
      (dumpIntentRunFiles (Intent.mk "db1" "c1" ⟨true, true⟩).files
        false).bsonOpen = false :=
  c7_handle_lifecycle ⟨[], []⟩ "db1" "c1" false
    (Intent.mk "db1" "c1" ⟨true, true⟩) (by decide)

/- ### Users/roles/version dump paths (part_000:57-105, C8) -/

/-- CreateUsersRolesVersionIntentsForDB (part_000:57-105), path part. Paths
are component lists and the filepath.Join collaborator concatenates the
components of its arguments. The first component of the result is the
directory passed to os.MkdirAll (filepath.Join(Out, db), part_000:59-60);
the second lists the three file paths passed to os.Create, each built as
filepath.Join(outDir, db, fixedName) (part_000:65, 78, 91). -/
def CreateUsersRolesVersionIntentsForDB (out db : String) :
    List String × List (List String) :=
  let outDir := [out, db]
  (outDir,
    [outDir ++ [db, "$admin.system.users.bson"],
     outDir ++ [db, "$admin.system.roles.bson"],
     outDir ++ [db, "$admin.system.version.bson"]])

/-- C8 evaluated at the failing input Out="dump", db="db1": the three file
paths have parent directory dump/db1/db1, which differs from dump/db1 — the
directory MkdirAll creates and the directory the claim says the files are
directly under — because the code joins db into the path a second time. -/
theorem c8_users_roles_version_paths :
    (CreateUsersRolesVersionIntentsForDB "dump" "db1").2 =
        [["dump", "db1", "db1", "$admin.system.users.bson"],
         ["dump", "db1", "db1", "$admin.system.roles.bson"],
         ["dump", "db1", "db1", "$admin.system.version.bson"]] ∧
      (CreateUsersRolesVersionIntentsForDB "dump" "db1").1 =
        ["dump", "db1"] ∧
      ((CreateUsersRolesVersionIntentsForDB "dump" "db1").2.map
          List.dropLast) =
        [["dump", "db1", "db1"], ["dump", "db1", "db1"],
         ["dump", "db1", "db1"]] ∧
      (["dump", "db1", "db1"] : List String) ≠ ["dump", "db1"] := by
  refine ⟨rfl, rfl, rfl, by decide⟩
